import Mathlib

/-!
Shallow embedding of the compatibility scoring engine in `src/compatibility.py`
(class `Compatibility` and the convenience function `analyze_compatibility`).

Conventions:
* Python strings are embedded as `List Char` (named `Str` below); the substring
  test `needle in hay` is embedded by the executable function `hasSub`.
* Python floats are idealized as exact rationals `ℚ`; `round(x, 1)` is embedded
  as round-half-to-even at one decimal (`pyRound1`).
* Python dicts that are iterated are embedded as association lists in the
  source insertion order; dict keys are unique by construction in Python, which
  appears below as `Nodup` hypotheses on the planet tables where it matters.
* The interpretation-text fields of the four categorical scorers
  (element / modality / MBTI / enneagram) are not modelled; no claim below
  depends on them.  Their numeric `score` fields are modelled exactly.
-/

abbrev Str := List Char

def strOf (s : String) : Str := s.data

/-- Prefix test on character lists (`hay` starts with `needle`). -/
def startsW : Str → Str → Bool
  | [], _ => true
  | _ :: _, [] => false
  | a :: as, b :: bs => a == b && startsW as bs

/-- Python substring containment `needle in hay`. -/
def hasSub (needle : Str) : Str → Bool
  | [] => startsW needle []
  | h :: rest => startsW needle (h :: rest) || hasSub needle rest

/-- The apostrophe character (Python source writes labels as `f"{name}'s {planet}"`). -/
def apostrophe : Char := Char.ofNat 39

/-- The separator between an owner name and a planet in an aspect label. -/
def possessive : Str := apostrophe :: strOf "s "

/-- The label `f"{who}'s {planet}"` attached to each side of a found aspect. -/
def planetLabel (who planet : Str) : Str := who ++ possessive ++ planet

/-! ### Data model (input chart record and result record) -/

structure PlanetData where
  degree : ℚ
  sign : Str
deriving DecidableEq

/-- The fields of a natal-chart record that the compatibility engine reads:
`name`, `planets` (name → data, in dict insertion order), `dominants.element`,
`dominants.modality`, `mbti`, and `enneagram.type`. -/
structure Chart where
  name : Str
  planets : List (Str × PlanetData)
  element : Str
  modality : Str
  mbti : Str
  enneagramType : ℤ
deriving DecidableEq

/-- One entry of the aspect dictionaries produced by `_find_aspects`. -/
structure Aspect where
  planet1 : Str
  planet2 : Str
  aspect : Str
  orb : ℚ
  score : ℤ
  sign1 : Str
  sign2 : Str
deriving DecidableEq

structure CategoryScores where
  romance : ℚ
  friendship : ℚ
  business : ℚ
  communication : ℚ
  conflict_resolution : ℚ
deriving DecidableEq

structure CompatResult where
  overall_score : ℚ
  aspects : List Aspect
  element_score : ℤ
  modality_score : ℤ
  mbti_score : ℤ
  enneagram_score : ℤ
  category_scores : CategoryScores
  strengths : List Str
  challenges : List Str
  predictions : Str × Str
deriving DecidableEq

/-! ### Fixed constant tables -/

/-- One aspect kind with its ideal angle, orb tolerance and valence score.
Merges the three identically-keyed dicts `ASPECT_ANGLES` (whose insertion
order drives the detection loop), `ASPECT_ORBS` and `ASPECT_SCORES`. -/
structure AspectEntry where
  name : Str
  angle : ℚ
  orbTol : ℚ
  score : ℤ
deriving DecidableEq

def ASPECT_TABLE : List AspectEntry :=
  [⟨strOf "conjunction", 0, 8, 5⟩,
   ⟨strOf "opposition", 180, 8, -4⟩,
   ⟨strOf "trine", 120, 6, 8⟩,
   ⟨strOf "square", 90, 6, -6⟩,
   ⟨strOf "sextile", 60, 4, 6⟩]

def RELATIONSHIP_PLANETS : List Str :=
  [strOf "Sun", strOf "Moon", strOf "Venus", strOf "Mars", strOf "Mercury"]

def ELEMENT_COMPATIBILITY : List ((Str × Str) × ℤ) :=
  [((strOf "Fire", strOf "Fire"), 7),
   ((strOf "Fire", strOf "Earth"), 3),
   ((strOf "Fire", strOf "Air"), 8),
   ((strOf "Fire", strOf "Water"), 4),
   ((strOf "Earth", strOf "Earth"), 7),
   ((strOf "Earth", strOf "Air"), 3),
   ((strOf "Earth", strOf "Water"), 8),
   ((strOf "Air", strOf "Air"), 7),
   ((strOf "Air", strOf "Water"), 4),
   ((strOf "Water", strOf "Water"), 7)]

def harmoniousPairs : List (ℤ × ℤ) :=
  [(1, 2), (1, 7), (2, 4), (2, 8), (3, 7), (3, 9),
   (4, 5), (4, 9), (5, 8), (6, 9), (7, 8)]

/-! ### Aspect detection (`_calculate_angle_difference`, `_find_aspects`) -/

def calculateAngleDifference (deg1 deg2 : ℚ) : ℚ :=
  let diff := |deg1 - deg2|
  if diff > 180 then 360 - diff else diff

def relevant (p : Str × PlanetData) : Bool := decide (p.1 ∈ RELATIONSHIP_PLANETS)

/-- The aspects recorded for one (body-in-A, body-in-B) pair: the inner loop of
`_find_aspects` over the five aspect kinds. -/
def pairAspects (c1 c2 : Chart) (p1 p2 : Str × PlanetData) : List Aspect :=
  ASPECT_TABLE.filterMap (fun t =>
    let angleDiff := calculateAngleDifference p1.2.degree p2.2.degree
    if |angleDiff - t.angle| ≤ t.orbTol then
      some { planet1 := planetLabel c1.name p1.1
             planet2 := planetLabel c2.name p2.1
             aspect := t.name
             orb := |angleDiff - t.angle|
             score := t.score
             sign1 := p1.2.sign
             sign2 := p2.2.sign }
    else none)

/-- The aspect list in encounter order (before the final sort). -/
def findAspectsRaw (c1 c2 : Chart) : List Aspect :=
  (c1.planets.filter relevant).flatMap (fun p1 =>
    (c2.planets.filter relevant).flatMap (fun p2 => pairAspects c1 c2 p1 p2))

/-- The order used by `sorted(aspects, key=lambda x: abs(x["score"]), reverse=True)`:
descending on the absolute valence score.  `aspectGE a b` means `a` may come
before `b` in the sorted output. -/
def aspectGE (a b : Aspect) : Prop := |b.score| ≤ |a.score|

instance : DecidableRel aspectGE := fun a b => inferInstanceAs (Decidable (|b.score| ≤ |a.score|))

/-- Python `sorted` is specified to be a stable sort, and the output of a stable
sort is uniquely determined by the input, the order, and stability; we realize
it with insertion sort (structurally recursive, hence evaluable in proofs).
The theorems below prove both sortedness and tie-stability of the result. -/
def findAspects (c1 c2 : Chart) : List Aspect :=
  (findAspectsRaw c1 c2).insertionSort aspectGE

/-! ### Categorical scorers (scores only; interpretation text not modelled) -/

def elementScore (c1 c2 : Chart) : ℤ :=
  let e1 := c1.element
  let e2 := c2.element
  let pair :=
    if (ELEMENT_COMPATIBILITY.find? (fun t => decide (t.1 = (e1, e2)))).isSome
    then (e1, e2) else (e2, e1)
  (((ELEMENT_COMPATIBILITY.find? (fun t => decide (t.1 = pair))).map (·.2)).getD 5)

def modalityScore (c1 c2 : Chart) : ℤ :=
  let m1 := c1.modality
  let m2 := c2.modality
  if m1 = m2 then 6
  else if strOf "Cardinal" ∈ [m1, m2] ∧ strOf "Mutable" ∈ [m1, m2] then 7
  else if strOf "Fixed" ∈ [m1, m2] ∧ strOf "Mutable" ∈ [m1, m2] then 6
  else 5

def mbtiDifferences (c1 c2 : Chart) : ℕ :=
  (c1.mbti.zip c2.mbti).countP (fun p => decide (p.1 ≠ p.2))

def mbtiScore (c1 c2 : Chart) : ℤ :=
  let d := mbtiDifferences c1 c2
  if d = 0 then 6 else if d = 1 then 7 else if d = 2 then 8 else if d = 3 then 5 else 4

def enneagramScore (c1 c2 : Chart) : ℤ :=
  let t1 := c1.enneagramType
  let t2 := c2.enneagramType
  let pair := if t1 ≤ t2 then (t1, t2) else (t2, t1)
  let isHarmonious :=
    pair ∈ harmoniousPairs ∨ pair ∈ harmoniousPairs.map (fun q => (q.2, q.1))
  if t1 = t2 then 6 else if isHarmonious then 8 else 5

/-! ### Category score aggregation (`_calculate_category_scores`) -/

def sumScores (l : List Aspect) : ℤ := (l.map Aspect.score).sum

def aspectAvg (aspects : List Aspect) : ℚ :=
  if aspects = [] then 0 else (sumScores aspects : ℚ) / aspects.length

def sunMoonFilter (a : Aspect) : Bool :=
  hasSub (strOf "Sun") a.planet1 && hasSub (strOf "Moon") a.planet2 ||
  hasSub (strOf "Moon") a.planet1 && hasSub (strOf "Sun") a.planet2

def venusMarsFilter (a : Aspect) : Bool :=
  hasSub (strOf "Venus") a.planet1 && hasSub (strOf "Mars") a.planet2 ||
  hasSub (strOf "Mars") a.planet1 && hasSub (strOf "Venus") a.planet2

def mercuryFilter (a : Aspect) : Bool :=
  hasSub (strOf "Mercury") a.planet1 || hasSub (strOf "Mercury") a.planet2

/-- `max(0, min(100, score))`. -/
def normalizeScore (score : ℚ) : ℚ := max 0 (min 100 score)

def calculateCategoryScores (c1 c2 : Chart) (aspects : List Aspect) : CategoryScores :=
  let aspect_avg := aspectAvg aspects
  let sun_moon := aspects.filter sunMoonFilter
  let venus_mars := aspects.filter venusMarsFilter
  let mercury := aspects.filter mercuryFilter
  let romance := 50 + aspect_avg * 3
  let romance := if sun_moon = [] then romance
    else romance + (((sun_moon.map (fun a => a.score * 2)).sum : ℤ) : ℚ)
  let romance := if venus_mars = [] then romance
    else romance + (((venus_mars.map (fun a => a.score * 3)).sum : ℤ) : ℚ)
  let friendship := 50 + aspect_avg * 3
  let friendship := if mercury = [] then friendship
    else friendship + (((mercury.map (fun a => a.score * 2)).sum : ℤ) : ℚ)
  let business := 50 + aspect_avg * 2 + (modalityScore c1 c2 : ℚ) * 2
  let communication := 50 + aspect_avg * 2
  let communication := if mercury = [] then communication
    else communication + (((mercury.map (fun a => a.score * 3)).sum : ℤ) : ℚ)
  let conflict := if aspect_avg < 0 then 50 - aspect_avg * 2 else 50 + aspect_avg * 2
  { romance := normalizeScore romance
    friendship := normalizeScore friendship
    business := normalizeScore business
    communication := normalizeScore communication
    conflict_resolution := normalizeScore conflict }

/-! ### Narrative extraction -/

def identifyStrengths (aspects : List Aspect) (categories : CategoryScores) : List Str :=
  let harmonious := aspects.filter (fun a => decide (a.score > 0))
  let strengths : List Str :=
    if harmonious.length ≥ 5 then [strOf "Multiple harmonious planetary connections"] else []
  let strengths := strengths ++ (harmonious.take 3).filterMap (fun a =>
    if a.aspect = strOf "trine" then
      some (a.planet1 ++ strOf " trine " ++ a.planet2 ++ strOf " - Natural flow and ease")
    else if a.aspect = strOf "sextile" then
      some (a.planet1 ++ strOf " sextile " ++ a.planet2 ++ strOf " - Opportunities for growth")
    else none)
  let strengths := strengths ++
    (if categories.romance ≥ 70 then [strOf "Strong romantic chemistry and attraction"] else [])
  let strengths := strengths ++
    (if categories.communication ≥ 70 then [strOf "Excellent communication and understanding"] else [])
  let strengths := strengths ++
    (if categories.friendship ≥ 70 then [strOf "Solid foundation of friendship and mutual respect"] else [])
  strengths.take 5

def identifyChallenges (aspects : List Aspect) (categories : CategoryScores) : List Str :=
  let difficult := aspects.filter (fun a => decide (a.score < 0))
  let challenges := (difficult.take 3).filterMap (fun a =>
    if a.aspect = strOf "square" then
      some (a.planet1 ++ strOf " square " ++ a.planet2 ++ strOf " - Requires conscious effort to harmonize")
    else if a.aspect = strOf "opposition" then
      some (a.planet1 ++ strOf " opposite " ++ a.planet2 ++ strOf " - Need to balance opposing needs")
    else none)
  let challenges := challenges ++
    (if categories.communication < 50 then [strOf "Communication styles may differ significantly"] else [])
  let challenges := challenges ++
    (if categories.conflict_resolution < 50 then [strOf "Conflict resolution requires patience and effort"] else [])
  let challenges :=
    if challenges = [] then [strOf "No major astrological challenges - focus on personal growth areas"]
    else challenges
  challenges.take 5

def generatePredictions (overall_score : ℚ) : Str × Str :=
  if overall_score ≥ 75 then
    (strOf "Deeply fulfilling partnership with natural harmony, mutual growth, and lasting connection",
     strOf "Risk of complacency or taking the relationship for granted")
  else if overall_score ≥ 60 then
    (strOf "Strong partnership with good potential for long-term success through mutual effort",
     strOf "Occasional friction that requires active communication and compromise")
  else if overall_score ≥ 45 then
    (strOf "Relationship can work with significant conscious effort and commitment from both parties",
     strOf "Recurring challenges may lead to frustration without strong foundation")
  else
    (strOf "Opportunity for significant personal growth through navigating differences",
     strOf "Fundamental differences may create persistent tension and difficulty")

/-! ### Overall score and rounding -/

/-- Round-half-to-even to an integer, mirroring Python `round` on an exact value. -/
def roundHalfEven (x : ℚ) : ℤ :=
  if x - x.floor < 1 / 2 then x.floor
  else if 1 / 2 < x - x.floor then x.floor + 1
  else if x.floor % 2 = 0 then x.floor else x.floor + 1

/-- Python `round(x, 1)`. -/
def pyRound1 (x : ℚ) : ℚ := (roundHalfEven (x * 10) : ℚ) / 10

/-- Lines 393-406 of `_analyze`: the weighted overall score, clamped to [0,100]
but not yet rounded.  This clamped value is what `_generate_predictions`
receives; the rounded value is what the result reports. -/
def overallScoreClamped (c1 c2 : Chart) : ℚ :=
  let aspects := findAspects c1 c2
  let category_scores := calculateCategoryScores c1 c2 aspects
  let aspect_score := if aspects = [] then 0 else (sumScores aspects : ℚ) / aspects.length
  let aspect_normalized := ((aspect_score + 6) / 12) * 100
  let overall_score :=
    aspect_normalized * (30 / 100) +
    (elementScore c1 c2 : ℚ) * 10 * (15 / 100) +
    (modalityScore c1 c2 : ℚ) * 10 * (10 / 100) +
    (mbtiScore c1 c2 : ℚ) * 10 * (15 / 100) +
    (enneagramScore c1 c2 : ℚ) * 10 * (10 / 100) +
    (category_scores.romance + category_scores.friendship + category_scores.business +
     category_scores.communication + category_scores.conflict_resolution) / 5 * (20 / 100)
  max 0 (min 100 overall_score)

/-- `_analyze`: the full compatibility result. -/
def analyze (c1 c2 : Chart) : CompatResult :=
  let aspects := findAspects c1 c2
  let category_scores := calculateCategoryScores c1 c2 aspects
  let overall_score := overallScoreClamped c1 c2
  { overall_score := pyRound1 overall_score
    aspects := aspects
    element_score := elementScore c1 c2
    modality_score := modalityScore c1 c2
    mbti_score := mbtiScore c1 c2
    enneagram_score := enneagramScore c1 c2
    category_scores := category_scores
    strengths := identifyStrengths aspects category_scores
    challenges := identifyChallenges aspects category_scores
    predictions := generatePredictions overall_score }

/-- The module-level convenience function `analyze_compatibility`. -/
def analyzeCompatibility (c1 c2 : Chart) : CompatResult := analyze c1 c2

/-! ### Basic facts about clamping and rounding -/

theorem ratFloor_eq_intFloor (q : ℚ) : (q.floor : ℤ) = ⌊q⌋ :=
  (Rat.floor_def' q).trans Rat.floor_def.symm

theorem roundHalfEven_bounds {x : ℚ} {lo hi : ℤ} (h1 : (lo : ℚ) ≤ x) (h2 : x ≤ hi) :
    lo ≤ roundHalfEven x ∧ roundHalfEven x ≤ hi := by
  unfold roundHalfEven
  rw [ratFloor_eq_intFloor]
  have hfl : (⌊x⌋ : ℚ) ≤ x := Int.floor_le x
  have hlo : lo ≤ ⌊x⌋ := Int.le_floor.mpr h1
  have hhi : ⌊x⌋ ≤ hi := by
    have : (⌊x⌋ : ℚ) ≤ (hi : ℚ) := le_trans hfl h2
    exact_mod_cast this
  split_ifs with hf1 hf2 hpar
  · exact ⟨hlo, hhi⟩
  · refine ⟨le_trans hlo (by omega), ?_⟩
    have hx2 : (⌊x⌋ : ℚ) + 1 / 2 ≤ x := by
      have := not_lt.mp hf1
      linarith
    have hq : (⌊x⌋ : ℚ) < (hi : ℚ) := by linarith
    have : ⌊x⌋ < hi := by exact_mod_cast hq
    omega
  · exact ⟨hlo, hhi⟩
  · refine ⟨le_trans hlo (by omega), ?_⟩
    have hx2 : (⌊x⌋ : ℚ) + 1 / 2 ≤ x := by
      have := not_lt.mp hf1
      linarith
    have hq : (⌊x⌋ : ℚ) < (hi : ℚ) := by linarith
    have : ⌊x⌋ < hi := by exact_mod_cast hq
    omega

theorem pyRound1_bounds {x : ℚ} (h1 : 0 ≤ x) (h2 : x ≤ 100) :
    0 ≤ pyRound1 x ∧ pyRound1 x ≤ 100 := by
  unfold pyRound1
  have e1 : ((0 : ℤ) : ℚ) ≤ x * 10 := by push_cast; linarith
  have e2 : x * 10 ≤ ((1000 : ℤ) : ℚ) := by push_cast; linarith
  obtain ⟨hl, hr⟩ := @roundHalfEven_bounds (x * 10) 0 1000 e1 e2
  have hl2 : (0 : ℚ) ≤ ((roundHalfEven (x * 10) : ℤ) : ℚ) := by exact_mod_cast hl
  have hr2 : ((roundHalfEven (x * 10) : ℤ) : ℚ) ≤ 1000 := by exact_mod_cast hr
  constructor
  · linarith
  · linarith

theorem normalizeScore_nonneg (x : ℚ) : 0 ≤ normalizeScore x := le_max_left 0 _

theorem normalizeScore_le_100 (x : ℚ) : normalizeScore x ≤ 100 :=
  max_le (by norm_num) (min_le_left _ _)

/-! ### Projections of the analysis record -/

theorem analyze_overall_def (c1 c2 : Chart) :
    (analyze c1 c2).overall_score = pyRound1 (overallScoreClamped c1 c2) := rfl

theorem analyze_predictions_def (c1 c2 : Chart) :
    (analyze c1 c2).predictions = generatePredictions (overallScoreClamped c1 c2) := rfl

theorem analyze_aspects_def (c1 c2 : Chart) :
    (analyze c1 c2).aspects = findAspects c1 c2 := rfl

theorem analyze_category_scores_def (c1 c2 : Chart) :
    (analyze c1 c2).category_scores = calculateCategoryScores c1 c2 (findAspects c1 c2) := rfl

theorem analyze_challenges_def (c1 c2 : Chart) :
    (analyze c1 c2).challenges =
      identifyChallenges (findAspects c1 c2) (calculateCategoryScores c1 c2 (findAspects c1 c2)) := rfl

theorem overallScoreClamped_bounds (c1 c2 : Chart) :
    0 ≤ overallScoreClamped c1 c2 ∧ overallScoreClamped c1 c2 ≤ 100 := by
  unfold overallScoreClamped
  exact ⟨le_max_left _ _, max_le (by norm_num) (min_le_left _ _)⟩

/-- Every category score field is a clamped (`normalize`d) value. -/
theorem calculateCategoryScores_normalized (c1 c2 : Chart) (l : List Aspect) :
    ∃ r f b m k, calculateCategoryScores c1 c2 l =
      { romance := normalizeScore r, friendship := normalizeScore f,
        business := normalizeScore b, communication := normalizeScore m,
        conflict_resolution := normalizeScore k } :=
  ⟨_, _, _, _, _, rfl⟩

/-- C2: for every chart pair, each of the five category scores and the overall
score of the returned result lies in [0, 100] inclusive; the statement is
universally quantified over charts, so it covers in particular the empty aspect
sequence and sequences of extreme-valence aspects. -/
theorem category_and_overall_scores_in_range (c1 c2 : Chart) :
    (0 ≤ (analyze c1 c2).category_scores.romance ∧ (analyze c1 c2).category_scores.romance ≤ 100) ∧
    (0 ≤ (analyze c1 c2).category_scores.friendship ∧ (analyze c1 c2).category_scores.friendship ≤ 100) ∧
    (0 ≤ (analyze c1 c2).category_scores.business ∧ (analyze c1 c2).category_scores.business ≤ 100) ∧
    (0 ≤ (analyze c1 c2).category_scores.communication ∧ (analyze c1 c2).category_scores.communication ≤ 100) ∧
    (0 ≤ (analyze c1 c2).category_scores.conflict_resolution ∧ (analyze c1 c2).category_scores.conflict_resolution ≤ 100) ∧
    (0 ≤ (analyze c1 c2).overall_score ∧ (analyze c1 c2).overall_score ≤ 100) := by
  obtain ⟨h1, h2⟩ := overallScoreClamped_bounds c1 c2
  obtain ⟨r, f, b, m, k, hcs⟩ := calculateCategoryScores_normalized c1 c2 (findAspects c1 c2)
  rw [analyze_overall_def, analyze_category_scores_def, hcs]
  refine ⟨?_, ?_, ?_, ?_, ?_, pyRound1_bounds h1 h2⟩
  all_goals exact ⟨normalizeScore_nonneg _, normalizeScore_le_100 _⟩

/-- C8: the analysis is a deterministic pure function of the two chart records:
running it twice on identical inputs yields identical results in every field of
the returned record (no hidden randomness or ordering non-determinism). -/
theorem analysis_two_runs_identical (c1 c2 : Chart) :
    (analyzeCompatibility c1 c2).overall_score = (analyzeCompatibility c1 c2).overall_score ∧
    (analyzeCompatibility c1 c2).aspects = (analyzeCompatibility c1 c2).aspects ∧
    (analyzeCompatibility c1 c2).element_score = (analyzeCompatibility c1 c2).element_score ∧
    (analyzeCompatibility c1 c2).modality_score = (analyzeCompatibility c1 c2).modality_score ∧
    (analyzeCompatibility c1 c2).mbti_score = (analyzeCompatibility c1 c2).mbti_score ∧
    (analyzeCompatibility c1 c2).enneagram_score = (analyzeCompatibility c1 c2).enneagram_score ∧
    (analyzeCompatibility c1 c2).category_scores = (analyzeCompatibility c1 c2).category_scores ∧
    (analyzeCompatibility c1 c2).strengths = (analyzeCompatibility c1 c2).strengths ∧
    (analyzeCompatibility c1 c2).challenges = (analyzeCompatibility c1 c2).challenges ∧
    (analyzeCompatibility c1 c2).predictions = (analyzeCompatibility c1 c2).predictions ∧
    analyzeCompatibility c1 c2 = analyzeCompatibility c1 c2 :=
  ⟨rfl, rfl, rfl, rfl, rfl, rfl, rfl, rfl, rfl, rfl, rfl⟩

/-! ### Concrete chart records used as witnesses -/

/-- A chart pair engineered so that the unrounded clamped overall score is
exactly 75: a single Mercury-Mercury trine (valence 8), element pair
Fire+Earth (3), modalities Cardinal+Mutable (7), MBTI at Hamming distance 3
(5), non-harmonious distinct enneagram types (5). -/
def chartMercuryA : Chart :=
  ⟨strOf "Alice", [(strOf "Mercury", ⟨10, strOf "Gemini"⟩)],
   strOf "Fire", strOf "Cardinal", strOf "ENTJ", 1⟩

def chartMercuryB : Chart :=
  ⟨strOf "Bob", [(strOf "Mercury", ⟨130, strOf "Virgo"⟩)],
   strOf "Earth", strOf "Mutable", strOf "INFP", 3⟩

/-- The single aspect found for `chartMercuryA` and `chartMercuryB`: a
Mercury-Mercury trine with orb 0. -/
def mercTrine : Aspect :=
  ⟨planetLabel (strOf "Alice") (strOf "Mercury"), planetLabel (strOf "Bob") (strOf "Mercury"),
   strOf "trine", 0, 8, strOf "Gemini", strOf "Virgo"⟩

theorem findAspects_merc : findAspects chartMercuryA chartMercuryB = [mercTrine] := by
  have h1 : findAspectsRaw chartMercuryA chartMercuryB = [mercTrine] := by
    rw [findAspectsRaw]
    have hf1 : (chartMercuryA.planets.filter relevant) = chartMercuryA.planets := by
      simp +decide [chartMercuryA]
    have hf2 : (chartMercuryB.planets.filter relevant) = chartMercuryB.planets := by
      simp +decide [chartMercuryB]
    rw [hf1, hf2]
    show (List.flatMap _ _) = _
    norm_num [chartMercuryA, chartMercuryB, List.flatMap, pairAspects, ASPECT_TABLE,
      calculateAngleDifference, mercTrine, List.filterMap_cons]
  rw [findAspects, h1]
  simp [List.insertionSort, List.orderedInsert]

theorem cats_merc : calculateCategoryScores chartMercuryA chartMercuryB [mercTrine] =
    ⟨74, 90, 80, 90, 66⟩ := by
  have hmod : modalityScore chartMercuryA chartMercuryB = 7 := by decide
  have h1 : List.filter sunMoonFilter [mercTrine] = [] := by simp +decide [List.filter]
  have h2 : List.filter venusMarsFilter [mercTrine] = [] := by simp +decide [List.filter]
  have h3 : List.filter mercuryFilter [mercTrine] = [mercTrine] := by simp +decide [List.filter]
  have hsum : sumScores [mercTrine] = 8 := by decide
  have havg : aspectAvg [mercTrine] = 8 := by norm_num [aspectAvg, hsum]
  have hs2 : (List.map (fun a => a.score * 2) [mercTrine]).sum = (16 : ℤ) := by decide
  have hs3 : (List.map (fun a => a.score * 3) [mercTrine]).sum = (24 : ℤ) := by decide
  have hsc : mercTrine.score = 8 := rfl
  rw [calculateCategoryScores, hmod, h1, h2, h3, havg]
  norm_num [hs2, hs3, hsc, normalizeScore]

theorem overall_merc : overallScoreClamped chartMercuryA chartMercuryB = 75 := by
  have he : elementScore chartMercuryA chartMercuryB = 3 := by decide
  have hm : modalityScore chartMercuryA chartMercuryB = 7 := by decide
  have hb : mbtiScore chartMercuryA chartMercuryB = 5 := by decide
  have hn : enneagramScore chartMercuryA chartMercuryB = 5 := by decide
  have hsum : sumScores [mercTrine] = 8 := by decide
  rw [overallScoreClamped, findAspects_merc, cats_merc, he, hm, hb, hn]
  norm_num [hsum]

/-- C7: any chart pair whose clamped overall score (the value handed to
`_generate_predictions`) is exactly 75.0 receives the top prediction bucket:
the 75 boundary is inclusive. -/
theorem overall_75_selects_top_bucket (c1 c2 : Chart)
    (h : overallScoreClamped c1 c2 = 75) :
    (analyze c1 c2).predictions =
      (strOf "Deeply fulfilling partnership with natural harmony, mutual growth, and lasting connection",
       strOf "Risk of complacency or taking the relationship for granted") := by
  rw [analyze_predictions_def, h]
  norm_num [generatePredictions]

theorem overall_75_selects_top_bucket_witness :
    overallScoreClamped chartMercuryA chartMercuryB = 75 ∧
    (analyze chartMercuryA chartMercuryB).predictions =
      (strOf "Deeply fulfilling partnership with natural harmony, mutual growth, and lasting connection",
       strOf "Risk of complacency or taking the relationship for granted") :=
  ⟨overall_merc, overall_75_selects_top_bucket chartMercuryA chartMercuryB overall_merc⟩

/-! ### C6: baseline category scores when no relevant bodies are present -/

theorem modalityScore_cases (c1 c2 : Chart) :
    modalityScore c1 c2 = 5 ∨ modalityScore c1 c2 = 6 ∨ modalityScore c1 c2 = 7 := by
  simp only [modalityScore]
  split_ifs <;> simp

/-- C6: when neither chart has any of the 5 relevant bodies populated, the
aspect sequence is empty and the category scores collapse to their baselines:
Romance, Friendship, Communication, Conflict Resolution are exactly 50, and
Business is 50 plus twice the modality score. -/
theorem no_relevant_bodies_baseline (c1 c2 : Chart)
    (h1 : ∀ p ∈ c1.planets, p.1 ∉ RELATIONSHIP_PLANETS)
    (h2 : ∀ p ∈ c2.planets, p.1 ∉ RELATIONSHIP_PLANETS) :
    (analyze c1 c2).aspects = [] ∧
    (analyze c1 c2).category_scores.romance = 50 ∧
    (analyze c1 c2).category_scores.friendship = 50 ∧
    (analyze c1 c2).category_scores.communication = 50 ∧
    (analyze c1 c2).category_scores.conflict_resolution = 50 ∧
    (analyze c1 c2).category_scores.business = 50 + 2 * (modalityScore c1 c2 : ℚ) := by
  have hf : c1.planets.filter relevant = [] := by
    rw [List.filter_eq_nil_iff]
    intro p hp
    simp [relevant, h1 p hp]
  have hraw : findAspectsRaw c1 c2 = [] := by
    rw [findAspectsRaw, hf]
    rfl
  have hasp : findAspects c1 c2 = [] := by rw [findAspects, hraw]; rfl
  have havg : aspectAvg ([] : List Aspect) = 0 := by norm_num [aspectAvg]
  refine ⟨hasp, ?_⟩
  rw [analyze_category_scores_def, hasp, calculateCategoryScores, havg]
  norm_num [normalizeScore, List.filter]
  rcases modalityScore_cases c1 c2 with h | h | h <;> rw [h] <;> norm_num

def chartJupiterA : Chart :=
  ⟨strOf "Ann", [(strOf "Jupiter", ⟨20, strOf "Aries"⟩)],
   strOf "Fire", strOf "Fixed", strOf "ENTJ", 2⟩

def chartJupiterB : Chart :=
  ⟨strOf "Ben", [(strOf "Saturn", ⟨50, strOf "Leo"⟩)],
   strOf "Air", strOf "Fixed", strOf "ESFP", 4⟩

theorem no_relevant_bodies_baseline_witness :
    (∀ p ∈ chartJupiterA.planets, p.1 ∉ RELATIONSHIP_PLANETS) ∧
    (∀ p ∈ chartJupiterB.planets, p.1 ∉ RELATIONSHIP_PLANETS) ∧
    ((analyze chartJupiterA chartJupiterB).aspects = [] ∧
     (analyze chartJupiterA chartJupiterB).category_scores.romance = 50 ∧
     (analyze chartJupiterA chartJupiterB).category_scores.friendship = 50 ∧
     (analyze chartJupiterA chartJupiterB).category_scores.communication = 50 ∧
     (analyze chartJupiterA chartJupiterB).category_scores.conflict_resolution = 50 ∧
     (analyze chartJupiterA chartJupiterB).category_scores.business =
       50 + 2 * (modalityScore chartJupiterA chartJupiterB : ℚ)) :=
  ⟨by decide, by decide,
   no_relevant_bodies_baseline chartJupiterA chartJupiterB (by decide) (by decide)⟩

/-! ### C9: the conflict-resolution score floor -/

theorem categoryScores_conflict_def (c1 c2 : Chart) (l : List Aspect) :
    (calculateCategoryScores c1 c2 l).conflict_resolution =
      normalizeScore (if aspectAvg l < 0 then 50 - aspectAvg l * 2 else 50 + aspectAvg l * 2) :=
  rfl

theorem conflict_floor (c1 c2 : Chart) (l : List Aspect) :
    (calculateCategoryScores c1 c2 l).conflict_resolution =
      min 100 (50 + 2 * |aspectAvg l|) := by
  rw [categoryScores_conflict_def]
  have habs : (if aspectAvg l < 0 then 50 - aspectAvg l * 2 else 50 + aspectAvg l * 2) =
      50 + 2 * |aspectAvg l| := by
    rcases lt_or_le (aspectAvg l) 0 with h | h
    · rw [if_pos h, abs_of_neg h]; ring
    · rw [if_neg (not_lt.mpr h), abs_of_nonneg h]; ring
  rw [habs, normalizeScore]
  have h0 : (0 : ℚ) ≤ 50 + 2 * |aspectAvg l| := by positivity
  rw [max_eq_right (le_min (by norm_num) h0)]

theorem getLast_append_right {xs ys : Str} {c : Char} (h : ys.getLast? = some c) :
    (xs ++ ys).getLast? = some c := by
  rw [List.getLast?_append, h]
  rfl

/-- If the conflict-resolution category score is not below 50, the
conflict-resolution challenge line cannot appear in the challenge list:
every other possible line differs from it (the aspect templates end in
different characters, and the fixed lines are distinct strings). -/
theorem conflict_line_not_mem (aspects : List Aspect) (cats : CategoryScores)
    (h : ¬ cats.conflict_resolution < 50) :
    strOf "Conflict resolution requires patience and effort" ∉ identifyChallenges aspects cats := by
  intro hmem
  simp only [identifyChallenges, if_neg h, List.append_nil] at hmem
  have hmem2 := List.take_subset 5 _ hmem
  by_cases hL : ((aspects.filter (fun a => decide (a.score < 0))).take 3).filterMap (fun a =>
      if a.aspect = strOf "square" then
        some (a.planet1 ++ strOf " square " ++ a.planet2 ++ strOf " - Requires conscious effort to harmonize")
      else if a.aspect = strOf "opposition" then
        some (a.planet1 ++ strOf " opposite " ++ a.planet2 ++ strOf " - Need to balance opposing needs")
      else none) ++
      (if cats.communication < 50 then [strOf "Communication styles may differ significantly"] else []) = []
  · rw [if_pos hL, List.mem_singleton] at hmem2
    exact absurd hmem2 (by decide)
  · rw [if_neg hL] at hmem2
    rcases List.mem_append.mp hmem2 with hin | hin
    · obtain ⟨a, _, hfa⟩ := List.mem_filterMap.mp hin
      split_ifs at hfa with hsq hop
      · injection hfa with hfa
        have e1 : (a.planet1 ++ strOf " square " ++ a.planet2 ++
            strOf " - Requires conscious effort to harmonize").getLast? =
            some (Char.ofNat 101) := getLast_append_right (by decide)
        rw [hfa] at e1
        exact absurd e1 (by decide)
      · injection hfa with hfa
        have e1 : (a.planet1 ++ strOf " opposite " ++ a.planet2 ++
            strOf " - Need to balance opposing needs").getLast? =
            some (Char.ofNat 115) := getLast_append_right (by decide)
        rw [hfa] at e1
        exact absurd e1 (by decide)
    · by_cases hc : cats.communication < 50
      · rw [if_pos hc, List.mem_singleton] at hin
        exact absurd hin (by decide)
      · rw [if_neg hc] at hin
        exact absurd hin (List.not_mem_nil _)

/-- C9: for every chart pair, the conflict-resolution category score equals
min(100, 50 + 2|avg|), hence is always at least 50, and therefore the
challenge line triggered by a conflict-resolution score below 50 is never
emitted. -/
theorem conflict_resolution_floor_no_challenge_line (c1 c2 : Chart) :
    (analyze c1 c2).category_scores.conflict_resolution =
      min 100 (50 + 2 * |aspectAvg (findAspects c1 c2)|) ∧
    50 ≤ (analyze c1 c2).category_scores.conflict_resolution ∧
    strOf "Conflict resolution requires patience and effort" ∉ (analyze c1 c2).challenges := by
  have hconf := conflict_floor c1 c2 (findAspects c1 c2)
  have habs : (0 : ℚ) ≤ |aspectAvg (findAspects c1 c2)| := abs_nonneg _
  have h50 : (50 : ℚ) ≤ min 100 (50 + 2 * |aspectAvg (findAspects c1 c2)|) :=
    le_min (by norm_num) (by linarith)
  refine ⟨by rw [analyze_category_scores_def]; exact hconf, ?_, ?_⟩
  · rw [analyze_category_scores_def, hconf]
    exact h50
  · rw [analyze_challenges_def]
    apply conflict_line_not_mem
    rw [hconf]
    exact not_lt.mpr h50

/-! ### C1: the aspect-component rescale -/

/-- C1, specification side: the overall score exactly as the specification
words it — identical to `overallScoreClamped` followed by rounding, except that
the mean valence is rescaled linearly from its documented range [-6, +8] to
[0, 100], i.e. divided by 14, so that a mean of -6 maps to 0 and +8 to 100. -/
def c1SpecOverall (c1 c2 : Chart) : ℚ :=
  let aspects := findAspects c1 c2
  let category_scores := calculateCategoryScores c1 c2 aspects
  let aspect_score := if aspects = [] then 0 else (sumScores aspects : ℚ) / aspects.length
  let aspect_normalized := ((aspect_score + 6) / 14) * 100
  let overall_score :=
    aspect_normalized * (30 / 100) +
    (elementScore c1 c2 : ℚ) * 10 * (15 / 100) +
    (modalityScore c1 c2 : ℚ) * 10 * (10 / 100) +
    (mbtiScore c1 c2 : ℚ) * 10 * (15 / 100) +
    (enneagramScore c1 c2 : ℚ) * 10 * (10 / 100) +
    (category_scores.romance + category_scores.friendship + category_scores.business +
     category_scores.communication + category_scores.conflict_resolution) / 5 * (20 / 100)
  pyRound1 (max 0 (min 100 overall_score))

def chartSunA : Chart :=
  ⟨strOf "Alice", [(strOf "Sun", ⟨10, strOf "Aries"⟩)],
   strOf "Fire", strOf "Cardinal", strOf "ENTJ", 1⟩

def chartMoonB : Chart :=
  ⟨strOf "Bob", [(strOf "Moon", ⟨130, strOf "Leo"⟩)],
   strOf "Earth", strOf "Mutable", strOf "INFP", 3⟩

def sunMoonTrine : Aspect :=
  ⟨planetLabel (strOf "Alice") (strOf "Sun"), planetLabel (strOf "Bob") (strOf "Moon"),
   strOf "trine", 0, 8, strOf "Aries", strOf "Leo"⟩

theorem findAspects_sunMoon : findAspects chartSunA chartMoonB = [sunMoonTrine] := by
  have h1 : findAspectsRaw chartSunA chartMoonB = [sunMoonTrine] := by
    rw [findAspectsRaw]
    have hf1 : (chartSunA.planets.filter relevant) = chartSunA.planets := by
      simp +decide [chartSunA]
    have hf2 : (chartMoonB.planets.filter relevant) = chartMoonB.planets := by
      simp +decide [chartMoonB]
    rw [hf1, hf2]
    show (List.flatMap _ _) = _
    norm_num [chartSunA, chartMoonB, List.flatMap, pairAspects, ASPECT_TABLE,
      calculateAngleDifference, sunMoonTrine, List.filterMap_cons]
  rw [findAspects, h1]
  simp [List.insertionSort, List.orderedInsert]

theorem cats_sunMoon : calculateCategoryScores chartSunA chartMoonB [sunMoonTrine] =
    ⟨90, 74, 80, 66, 66⟩ := by
  have hmod : modalityScore chartSunA chartMoonB = 7 := by decide
  have h1 : List.filter sunMoonFilter [sunMoonTrine] = [sunMoonTrine] := by
    simp +decide [List.filter]
  have h2 : List.filter venusMarsFilter [sunMoonTrine] = [] := by simp +decide [List.filter]
  have h3 : List.filter mercuryFilter [sunMoonTrine] = [] := by simp +decide [List.filter]
  have hsum : sumScores [sunMoonTrine] = 8 := by decide
  have havg : aspectAvg [sunMoonTrine] = 8 := by norm_num [aspectAvg, hsum]
  have hsc : sunMoonTrine.score = 8 := rfl
  rw [calculateCategoryScores, hmod, h1, h2, h3, havg]
  norm_num [hsc, normalizeScore]

theorem overall_sunMoon : overallScoreClamped chartSunA chartMoonB = 1851 / 25 := by
  have he : elementScore chartSunA chartMoonB = 3 := by decide
  have hm : modalityScore chartSunA chartMoonB = 7 := by decide
  have hb : mbtiScore chartSunA chartMoonB = 5 := by decide
  have hn : enneagramScore chartSunA chartMoonB = 5 := by decide
  have hsum : sumScores [sunMoonTrine] = 8 := by decide
  rw [overallScoreClamped, findAspects_sunMoon, cats_sunMoon, he, hm, hb, hn]
  norm_num [hsum]

/-- C1 (evidence of the code bug): at a chart pair whose only aspect is a trine
(mean valence exactly 8, the top of the documented range), the code divides the
shifted mean by 12 — its own comment says it normalizes the range [-6, +8] to
[0, 100], which requires dividing by 14 — so the code maps a mean of 8 to
350/3 > 100, and the reported overall score is 74.0 where the documented
formula yields 69.0. -/
theorem overall_rescale_divides_by_12_not_14 :
    aspectAvg (findAspects chartSunA chartMoonB) = 8 ∧
    ((8 : ℚ) + 6) / 12 * 100 = 350 / 3 ∧
    (analyze chartSunA chartMoonB).overall_score = 74 ∧
    c1SpecOverall chartSunA chartMoonB = 69 ∧
    (analyze chartSunA chartMoonB).overall_score ≠ c1SpecOverall chartSunA chartMoonB := by
  have hsum : sumScores [sunMoonTrine] = 8 := by decide
  have havg : aspectAvg (findAspects chartSunA chartMoonB) = 8 := by
    rw [findAspects_sunMoon]
    norm_num [aspectAvg, hsum]
  have hcode : (analyze chartSunA chartMoonB).overall_score = 74 := by
    rw [analyze_overall_def, overall_sunMoon, pyRound1, roundHalfEven, ratFloor_eq_intFloor]
    norm_num
  have hspec : c1SpecOverall chartSunA chartMoonB = 69 := by
    have he : elementScore chartSunA chartMoonB = 3 := by decide
    have hm : modalityScore chartSunA chartMoonB = 7 := by decide
    have hb : mbtiScore chartSunA chartMoonB = 5 := by decide
    have hn : enneagramScore chartSunA chartMoonB = 5 := by decide
    rw [c1SpecOverall, findAspects_sunMoon, cats_sunMoon, he, hm, hb, hn]
    rw [pyRound1, roundHalfEven, ratFloor_eq_intFloor]
    norm_num [hsum]
  refine ⟨havg, by norm_num, hcode, hspec, ?_⟩
  rw [hcode, hspec]
  norm_num

/-! ### C10: predictions are bucketed on the unrounded score -/

/-- A chart pair with no aspects whose unrounded clamped overall score is
59.98, which rounds to 60.0: the unrounded value and the rounded value fall in
different prediction buckets. -/
def chartEmptyA : Chart :=
  ⟨strOf "Cara", [], strOf "Earth", strOf "Fixed", strOf "ENTJ", 1⟩

def chartEmptyB : Chart :=
  ⟨strOf "Dan", [], strOf "Water", strOf "Fixed", strOf "INTJ", 1⟩

theorem findAspects_empty : findAspects chartEmptyA chartEmptyB = [] := rfl

theorem cats_empty : calculateCategoryScores chartEmptyA chartEmptyB [] =
    ⟨50, 50, 62, 50, 50⟩ := by
  have hmod : modalityScore chartEmptyA chartEmptyB = 6 := by decide
  have havg : aspectAvg ([] : List Aspect) = 0 := by norm_num [aspectAvg]
  rw [calculateCategoryScores, hmod, havg]
  norm_num [normalizeScore, List.filter]

theorem overall_empty : overallScoreClamped chartEmptyA chartEmptyB = 2999 / 50 := by
  have he : elementScore chartEmptyA chartEmptyB = 8 := by decide
  have hm : modalityScore chartEmptyA chartEmptyB = 6 := by decide
  have hb : mbtiScore chartEmptyA chartEmptyB = 7 := by decide
  have hn : enneagramScore chartEmptyA chartEmptyB = 6 := by decide
  rw [overallScoreClamped, findAspects_empty, cats_empty, he, hm, hb, hn]
  norm_num

/-- C10: the prediction bucket is chosen by comparing the thresholds against
the clamped overall score before rounding, while the reported overall_score
field is the rounded value; and these genuinely differ — there is an input
whose unrounded score and reported score select different buckets. -/
theorem predictions_use_unrounded_score :
    (∀ c1 c2 : Chart,
      (analyze c1 c2).predictions = generatePredictions (overallScoreClamped c1 c2) ∧
      (analyze c1 c2).overall_score = pyRound1 (overallScoreClamped c1 c2)) ∧
    (∃ c1 c2 : Chart,
      generatePredictions (overallScoreClamped c1 c2) ≠
        generatePredictions ((analyze c1 c2).overall_score)) := by
  refine ⟨fun c1 c2 => ⟨rfl, rfl⟩, chartEmptyA, chartEmptyB, ?_⟩
  have hround : (analyze chartEmptyA chartEmptyB).overall_score = 60 := by
    rw [analyze_overall_def, overall_empty, pyRound1, roundHalfEven, ratFloor_eq_intFloor]
    norm_num
  have g1 : generatePredictions (2999 / 50) =
      (strOf "Relationship can work with significant conscious effort and commitment from both parties",
       strOf "Recurring challenges may lead to frustration without strong foundation") := by
    rw [generatePredictions]
    norm_num
  have g2 : generatePredictions 60 =
      (strOf "Strong partnership with good potential for long-term success through mutual effort",
       strOf "Occasional friction that requires active communication and compromise") := by
    rw [generatePredictions]
    norm_num
  rw [overall_empty, hround, g1, g2]
  decide

/-! ### C3: orb bounds, sortedness and stability of the aspect sequence -/

instance : IsTotal Aspect aspectGE := ⟨fun _ _ => le_total _ _⟩

instance : IsTrans Aspect aspectGE := ⟨fun _ _ _ hab hbc => le_trans hbc hab⟩

/-- Characterization of the aspects recorded for one body pair. -/
theorem mem_pairAspects {c1 c2 : Chart} {p1 p2 : Str × PlanetData} {a : Aspect}
    (h : a ∈ pairAspects c1 c2 p1 p2) :
    a.planet1 = planetLabel c1.name p1.1 ∧ a.planet2 = planetLabel c2.name p2.1 ∧
    ∃ t ∈ ASPECT_TABLE, a.aspect = t.name ∧ a.score = t.score ∧
      a.orb = |calculateAngleDifference p1.2.degree p2.2.degree - t.angle| ∧
      a.orb ≤ t.orbTol := by
  obtain ⟨t, ht, hfa⟩ := List.mem_filterMap.mp h
  dsimp only at hfa
  split_ifs at hfa with hc
  injection hfa with hfa
  subst hfa
  exact ⟨rfl, rfl, t, ht, rfl, rfl, rfl, hc⟩

theorem mem_findAspectsRaw {c1 c2 : Chart} {a : Aspect} (h : a ∈ findAspectsRaw c1 c2) :
    ∃ p1 ∈ c1.planets.filter relevant, ∃ p2 ∈ c2.planets.filter relevant,
      a ∈ pairAspects c1 c2 p1 p2 := by
  rw [findAspectsRaw] at h
  obtain ⟨p1, hp1, h2⟩ := List.mem_flatMap.mp h
  obtain ⟨p2, hp2, h3⟩ := List.mem_flatMap.mp h2
  exact ⟨p1, hp1, p2, hp2, h3⟩

theorem filter_orderedInsert_pos (k : ℤ) (a : Aspect) (ha : |a.score| = k) (m : List Aspect) :
    (List.orderedInsert aspectGE a m).filter (fun x => decide (|x.score| = k)) =
      a :: m.filter (fun x => decide (|x.score| = k)) := by
  induction m with
  | nil => simp [List.orderedInsert, List.filter, ha]
  | cons b m ih =>
    rw [List.orderedInsert]
    by_cases hr : aspectGE a b
    · rw [if_pos hr]
      simp [List.filter_cons, ha]
    · rw [if_neg hr]
      have hbk : ¬ (|b.score| = k) := fun hbe => hr (show aspectGE a b by rw [aspectGE, hbe, ha])
      simp [List.filter_cons, hbk, ih]

theorem filter_orderedInsert_neg (k : ℤ) (a : Aspect) (ha : ¬ (|a.score| = k)) (m : List Aspect) :
    (List.orderedInsert aspectGE a m).filter (fun x => decide (|x.score| = k)) =
      m.filter (fun x => decide (|x.score| = k)) := by
  induction m with
  | nil => simp [List.orderedInsert, List.filter, ha]
  | cons b m ih =>
    rw [List.orderedInsert]
    by_cases hr : aspectGE a b
    · rw [if_pos hr]
      simp [List.filter_cons, ha]
    · rw [if_neg hr]
      simp [List.filter_cons, ih]

/-- Stability of the sort: each tie class (fixed absolute valence) appears in
the sorted sequence in exactly its encounter order. -/
theorem filter_insertionSort_stable (k : ℤ) (l : List Aspect) :
    (l.insertionSort aspectGE).filter (fun x => decide (|x.score| = k)) =
      l.filter (fun x => decide (|x.score| = k)) := by
  induction l with
  | nil => rfl
  | cons a l ih =>
    rw [List.insertionSort]
    by_cases ha : |a.score| = k
    · rw [filter_orderedInsert_pos k a ha, ih]
      simp [List.filter_cons, ha]
    · rw [filter_orderedInsert_neg k a ha, ih]
      simp [List.filter_cons, ha]

/-- C3: every aspect in the returned sequence has a nonnegative orb at most its
kind's fixed tolerance, and the sequence is sorted by descending absolute
valence score, stably: it is a permutation of the encounter-order sequence in
which every tie class keeps its encounter order. -/
theorem aspects_orb_bounded_sorted_stable (c1 c2 : Chart) :
    (∀ a ∈ (analyze c1 c2).aspects, ∃ t ∈ ASPECT_TABLE,
        a.aspect = t.name ∧ 0 ≤ a.orb ∧ a.orb ≤ t.orbTol) ∧
    List.Sorted aspectGE (analyze c1 c2).aspects ∧
    List.Perm (analyze c1 c2).aspects (findAspectsRaw c1 c2) ∧
    (∀ k : ℤ, (analyze c1 c2).aspects.filter (fun x => decide (|x.score| = k)) =
      (findAspectsRaw c1 c2).filter (fun x => decide (|x.score| = k))) := by
  rw [analyze_aspects_def]
  refine ⟨?_, ?_, ?_, ?_⟩
  · intro a ha
    rw [findAspects] at ha
    have ha2 : a ∈ findAspectsRaw c1 c2 :=
      (List.perm_insertionSort aspectGE _).mem_iff.mp ha
    obtain ⟨p1, _, p2, _, hpa⟩ := mem_findAspectsRaw ha2
    obtain ⟨_, _, t, ht, hname, _, horb, htol⟩ := mem_pairAspects hpa
    exact ⟨t, ht, hname, by rw [horb]; exact abs_nonneg _, htol⟩
  · rw [findAspects]
    exact List.sorted_insertionSort aspectGE _
  · rw [findAspects]
    exact List.perm_insertionSort aspectGE _
  · intro k
    rw [findAspects]
    exact filter_insertionSort_stable k _

theorem aspects_orb_bounded_sorted_stable_witness :
    sunMoonTrine ∈ (analyze chartSunA chartMoonB).aspects ∧
    (∃ t ∈ ASPECT_TABLE, sunMoonTrine.aspect = t.name ∧ 0 ≤ sunMoonTrine.orb ∧
      sunMoonTrine.orb ≤ t.orbTol) ∧
    List.Sorted aspectGE (analyze chartSunA chartMoonB).aspects := by
  have hm : sunMoonTrine ∈ (analyze chartSunA chartMoonB).aspects := by
    rw [analyze_aspects_def, findAspects_sunMoon]
    exact List.mem_singleton_self _
  exact ⟨hm, (aspects_orb_bounded_sorted_stable chartSunA chartMoonB).1 sunMoonTrine hm,
    (aspects_orb_bounded_sorted_stable chartSunA chartMoonB).2.1⟩

/-! ### C4: disjointness of aspect kinds and uniqueness per body pair -/

/-- The five aspect acceptance intervals are pairwise disjoint: a single
separation value can satisfy the orb condition of at most one kind. -/
theorem aspect_table_disjoint (s : ℚ) :
    ∀ t1 ∈ ASPECT_TABLE, ∀ t2 ∈ ASPECT_TABLE,
      |s - t1.angle| ≤ t1.orbTol → |s - t2.angle| ≤ t2.orbTol → t1 = t2 := by
  intro t1 ht1 t2 ht2 h1 h2
  simp only [ASPECT_TABLE, List.mem_cons, List.not_mem_nil, or_false] at ht1 ht2
  rcases ht1 with rfl | rfl | rfl | rfl | rfl <;> rcases ht2 with rfl | rfl | rfl | rfl | rfl <;>
    first
      | rfl
      | (exfalso
         dsimp only at h1 h2
         rw [abs_le] at h1 h2
         obtain ⟨h1a, h1b⟩ := h1
         obtain ⟨h2a, h2b⟩ := h2
         linarith)

theorem length_filterMap_le_one {α β : Type _} (l : List α) (f : α → Option β)
    (hnd : l.Nodup)
    (h : ∀ x ∈ l, ∀ y ∈ l, (f x).isSome = true → (f y).isSome = true → x = y) :
    (l.filterMap f).length ≤ 1 := by
  induction l with
  | nil => simp
  | cons x l ih =>
    rcases hx : f x with _ | b
    · rw [List.filterMap_cons_none hx]
      exact ih (List.nodup_cons.mp hnd).2
        (fun y hy z hz hsy hsz =>
          h y (List.mem_cons_of_mem _ hy) z (List.mem_cons_of_mem _ hz) hsy hsz)
    · rw [List.filterMap_cons_some hx]
      have hnil : l.filterMap f = [] := by
        rw [List.filterMap_eq_nil_iff]
        intro y hy
        by_contra hfy
        have hsy : (f y).isSome = true := Option.ne_none_iff_isSome.mp hfy
        have hxy : x = y :=
          h x (List.mem_cons_self x l) y (List.mem_cons_of_mem _ hy) (by simp [hx]) hsy
        exact (List.nodup_cons.mp hnd).1 (hxy ▸ hy)
      simp [hnil]

theorem pairAspects_length_le_one (c1 c2 : Chart) (p1 p2 : Str × PlanetData) :
    (pairAspects c1 c2 p1 p2).length ≤ 1 := by
  rw [pairAspects]
  apply length_filterMap_le_one _ _ (by decide)
  intro x hx y hy hsx hsy
  dsimp only at hsx hsy
  split_ifs at hsx with hcx
  · split_ifs at hsy with hcy
    · exact aspect_table_disjoint _ x hx y hy hcx hcy
    · simp at hsy
  · simp at hsx

theorem filter_length_le_one {α : Type _} {l : List α} (hnd : l.Nodup) (p : α → Bool)
    (h : ∀ x ∈ l, ∀ y ∈ l, p x = true → p y = true → x = y) :
    (l.filter p).length ≤ 1 := by
  induction l with
  | nil => simp
  | cons x l ih =>
    rw [List.filter_cons]
    by_cases hp : p x = true
    · rw [if_pos hp]
      have hnil : l.filter p = [] := by
        rw [List.filter_eq_nil_iff]
        intro y hy hpy
        have hxy : x = y :=
          h x (List.mem_cons_self x l) y (List.mem_cons_of_mem _ hy) hp hpy
        exact (List.nodup_cons.mp hnd).1 (hxy ▸ hy)
      simp [hnil]
    · rw [if_neg hp]
      exact ih (List.nodup_cons.mp hnd).2
        (fun a ha b hb => h a (List.mem_cons_of_mem _ ha) b (List.mem_cons_of_mem _ hb))

theorem map_sum_le_one {α : Type _} (l : List α) (g : α → ℕ) (t : α → Bool)
    (h0 : ∀ x ∈ l, t x = false → g x = 0)
    (h1 : ∀ x ∈ l, g x ≤ 1)
    (hc : l.countP t ≤ 1) :
    (l.map g).sum ≤ 1 := by
  induction l with
  | nil => simp
  | cons x l ih =>
    rw [List.map_cons, List.sum_cons]
    rw [List.countP_cons] at hc
    by_cases ht : t x = true
    · have hl0 : l.countP t = 0 := by
        rw [if_pos ht] at hc
        omega
      have hz : (l.map g).sum = 0 := by
        apply List.sum_eq_zero
        intro n hn
        obtain ⟨y, hy, rfl⟩ := List.mem_map.mp hn
        refine h0 y (List.mem_cons_of_mem _ hy) ?_
        have hny := List.countP_eq_zero.mp hl0 y hy
        revert hny
        cases t y <;> simp
      rw [hz]
      have := h1 x (List.mem_cons_self x l)
      omega
    · have htf : t x = false := by
        revert ht
        cases t x <;> simp
      have hg0 : g x = 0 := h0 x (List.mem_cons_self x l) htf
      rw [hg0]
      have hc2 : l.countP t ≤ 1 := by
        rw [htf] at hc
        simpa using hc
      have := ih (fun y hy => h0 y (List.mem_cons_of_mem _ hy))
        (fun y hy => h1 y (List.mem_cons_of_mem _ hy)) hc2
      omega

theorem planetLabel_inj {n b1 b2 : Str} (h : planetLabel n b1 = planetLabel n b2) :
    b1 = b2 := by
  unfold planetLabel at h
  exact List.append_cancel_left h

theorem countP_label_le_one (n L : Str) (l : List (Str × PlanetData))
    (hnd : (l.map Prod.fst).Nodup) :
    l.countP (fun p => decide (planetLabel n p.1 = L)) ≤ 1 := by
  have hmap : l.countP (fun p => decide (planetLabel n p.1 = L)) =
      (l.map Prod.fst).countP (fun s => decide (planetLabel n s = L)) := by
    rw [List.countP_map]
    rfl
  rw [hmap, List.countP_eq_length_filter]
  apply filter_length_le_one hnd
  intro x hx y hy hpx hpy
  have ex : planetLabel n x = L := of_decide_eq_true hpx
  have ey : planetLabel n y = L := of_decide_eq_true hpy
  exact planetLabel_inj (ex.trans ey.symm)

theorem label_pair_count_le_one (c1 c2 : Chart)
    (h1 : (c1.planets.map Prod.fst).Nodup) (h2 : (c2.planets.map Prod.fst).Nodup)
    (L1 L2 : Str) :
    (((analyze c1 c2).aspects).filter
      (fun a => decide (a.planet1 = L1 ∧ a.planet2 = L2))).length ≤ 1 := by
  rw [analyze_aspects_def, findAspects,
    ((List.perm_insertionSort aspectGE _).filter _).length_eq, findAspectsRaw]
  simp only [List.filter_flatMap, List.length_flatMap, Function.comp_def]
  apply map_sum_le_one _ _ (fun p1 => decide (planetLabel c1.name p1.1 = L1))
  · intro p1 hp1 ht
    apply List.sum_eq_zero
    intro n hn
    obtain ⟨p2, hp2, rfl⟩ := List.mem_map.mp hn
    rw [List.length_eq_zero, List.filter_eq_nil_iff]
    intro a ha hpa
    obtain ⟨ha1, _, _⟩ := mem_pairAspects ha
    have hand : a.planet1 = L1 ∧ a.planet2 = L2 := of_decide_eq_true hpa
    rw [ha1] at hand
    simp [hand.1] at ht
  · intro p1 hp1
    apply map_sum_le_one _ _ (fun p2 => decide (planetLabel c2.name p2.1 = L2))
    · intro p2 hp2 ht
      rw [List.length_eq_zero, List.filter_eq_nil_iff]
      intro a ha hpa
      obtain ⟨_, ha2, _⟩ := mem_pairAspects ha
      have hand : a.planet1 = L1 ∧ a.planet2 = L2 := of_decide_eq_true hpa
      rw [ha2] at hand
      simp [hand.2] at ht
    · intro p2 hp2
      exact le_trans (List.length_filter_le _ _) (pairAspects_length_le_one c1 c2 p1 p2)
    · exact countP_label_le_one c2.name L2 _ (h2.sublist ((List.filter_sublist _).map _))
  · exact countP_label_le_one c1.name L1 _ (h1.sublist ((List.filter_sublist _).map _))

/-- C4: under the fixed constants, the five acceptance intervals are pairwise
disjoint — for every angular separation in [0, 180] at most one aspect kind
satisfies its orb condition — and consequently, for charts with duplicate-free
planet names (Python dict keys), each (body-in-A, body-in-B) pair contributes
at most one aspect to the sequence. -/
theorem aspect_kinds_mutually_exclusive :
    (∀ s : ℚ, 0 ≤ s → s ≤ 180 →
      ∀ t1 ∈ ASPECT_TABLE, ∀ t2 ∈ ASPECT_TABLE,
        |s - t1.angle| ≤ t1.orbTol → |s - t2.angle| ≤ t2.orbTol → t1 = t2) ∧
    (∀ c1 c2 : Chart,
      (c1.planets.map Prod.fst).Nodup → (c2.planets.map Prod.fst).Nodup →
      ∀ L1 L2 : Str,
        (((analyze c1 c2).aspects).filter
          (fun a => decide (a.planet1 = L1 ∧ a.planet2 = L2))).length ≤ 1) :=
  ⟨fun s _ _ => aspect_table_disjoint s, label_pair_count_le_one⟩

theorem aspect_kinds_mutually_exclusive_witness :
    ((0 : ℚ) ≤ 120 ∧ (120 : ℚ) ≤ 180) ∧
    (∀ t1 ∈ ASPECT_TABLE, ∀ t2 ∈ ASPECT_TABLE,
      |(120 : ℚ) - t1.angle| ≤ t1.orbTol → |(120 : ℚ) - t2.angle| ≤ t2.orbTol → t1 = t2) ∧
    (chartSunA.planets.map Prod.fst).Nodup ∧
    (chartMoonB.planets.map Prod.fst).Nodup ∧
    (((analyze chartSunA chartMoonB).aspects).filter
      (fun a => decide (a.planet1 = planetLabel (strOf "Alice") (strOf "Sun") ∧
        a.planet2 = planetLabel (strOf "Bob") (strOf "Moon")))).length ≤ 1 :=
  ⟨⟨by norm_num, by norm_num⟩,
   aspect_kinds_mutually_exclusive.1 120 (by norm_num) (by norm_num),
   by decide, by decide,
   aspect_kinds_mutually_exclusive.2 chartSunA chartMoonB (by decide) (by decide) _ _⟩

/-! ### C5: substring matching against aspect labels -/

theorem startsW_self (n : Str) : startsW n n = true := by
  induction n with
  | nil => rfl
  | cons a as ih => simp [startsW, ih]

theorem hasSub_of_startsW {n h : Str} (hs : startsW n h = true) : hasSub n h = true := by
  cases h with
  | nil => exact hs
  | cons x xs => simp [hasSub, hs]

theorem hasSub_append_right (xs : Str) {n ys : Str} (h : hasSub n ys = true) :
    hasSub n (xs ++ ys) = true := by
  induction xs with
  | nil => simpa using h
  | cons x xs ih => simp [hasSub, ih]

theorem startsW_append_split : ∀ (as : Str) {n bs : Str}, startsW n (as ++ bs) = true →
    startsW n as = true ∨ ∃ t, n = as ++ t ∧ startsW t bs = true := by
  intro as
  induction as with
  | nil =>
    intro n bs h
    exact Or.inr ⟨n, rfl, h⟩
  | cons a as ih =>
    intro n bs h
    cases n with
    | nil => exact Or.inl rfl
    | cons c n =>
      rw [List.cons_append, startsW, Bool.and_eq_true] at h
      obtain ⟨hca, hrest⟩ := h
      rcases ih hrest with h1 | ⟨t, ht, hb⟩
      · exact Or.inl (by rw [startsW, Bool.and_eq_true]; exact ⟨hca, h1⟩)
      · refine Or.inr ⟨t, ?_, hb⟩
        have hc : c = a := by simpa using hca
        rw [List.cons_append, hc, ht]

/-- A substring match against `xs ++ ys` lies inside `xs`, inside `ys`, or
spans the boundary, in which case a nonempty suffix of the needle is a prefix
of `ys`. -/
theorem hasSub_append_cases : ∀ (xs : Str) {n ys : Str}, hasSub n (xs ++ ys) = true →
    hasSub n xs = true ∨ hasSub n ys = true ∨
      ∃ s t, n = s ++ t ∧ s ≠ [] ∧ t ≠ [] ∧ startsW t ys = true := by
  intro xs
  induction xs with
  | nil =>
    intro n ys h
    exact Or.inr (Or.inl (by simpa using h))
  | cons x xs ih =>
    intro n ys h
    rw [List.cons_append, hasSub, Bool.or_eq_true] at h
    rcases h with h1 | h2
    · rw [← List.cons_append] at h1
      rcases startsW_append_split (x :: xs) h1 with hA | ⟨t, ht, hb⟩
      · exact Or.inl (hasSub_of_startsW hA)
      · cases t with
        | nil =>
          rw [List.append_nil] at ht
          subst ht
          exact Or.inl (hasSub_of_startsW (startsW_self _))
        | cons c tl =>
          exact Or.inr (Or.inr ⟨x :: xs, c :: tl, ht, by simp, by simp, hb⟩)
    · rcases ih h2 with hA | hB | ⟨s, t, hn, hs, ht, hst⟩
      · exact Or.inl (by rw [hasSub, Bool.or_eq_true]; exact Or.inr hA)
      · exact Or.inr (Or.inl hB)
      · exact Or.inr (Or.inr ⟨s, t, hn, hs, ht, hst⟩)

/-- The first character of the possessive separator is an apostrophe, so a
needle without an apostrophe that does not occur in the owner name can match
the label `name ++ possessive ++ body` only inside `possessive ++ body`. -/
theorem hasSub_planetLabel {needle name body : Str}
    (hclean : hasSub needle name = false) (hap : apostrophe ∉ needle) :
    hasSub needle (planetLabel name body) = hasSub needle (possessive ++ body) := by
  rw [planetLabel, List.append_assoc]
  cases hv : hasSub needle (possessive ++ body) with
  | true => exact hasSub_append_right name hv
  | false =>
    by_contra hne
    have hl : hasSub needle (name ++ (possessive ++ body)) = true := by
      revert hne
      cases hasSub needle (name ++ (possessive ++ body)) <;> simp
    rcases hasSub_append_cases name hl with h1 | h2 | ⟨s, t, hn, _, ht, hst⟩
    · simp [hclean] at h1
    · simp [hv] at h2
    · cases t with
      | nil => exact ht rfl
      | cons c tl =>
        have hposs : possessive ++ body = apostrophe :: (strOf "s " ++ body) := rfl
        rw [hposs, startsW, Bool.and_eq_true] at hst
        obtain ⟨hca, -⟩ := hst
        have hc : c = apostrophe := by simpa using hca
        apply hap
        rw [hn, hc]
        exact List.mem_append_right _ (List.mem_cons_self _ _)

/-- A chart name is clean when it does not contain any of the five relevant
body names as a substring. -/
def cleanName (n : Str) : Prop := ∀ b ∈ RELATIONSHIP_PLANETS, hasSub b n = false

instance (n : Str) : Decidable (cleanName n) := by
  unfold cleanName
  infer_instance

theorem planetLabel_inj_iff (n b1 b2 : Str) :
    planetLabel n b1 = planetLabel n b2 ↔ b1 = b2 :=
  ⟨planetLabel_inj, fun h => by rw [h]⟩

/-- Evaluation of the substring tests against `possessive ++ body` for the
five relevant needles and bodies: a needle occurs there exactly when it is the
body itself. -/
theorem hasSub_poss_eq (needle body : Str) (hn : needle ∈ RELATIONSHIP_PLANETS)
    (hb : body ∈ RELATIONSHIP_PLANETS) :
    hasSub needle (possessive ++ body) = decide (body = needle) := by
  simp only [RELATIONSHIP_PLANETS, List.mem_cons, List.not_mem_nil, or_false] at hn hb
  rcases hn with rfl | rfl | rfl | rfl | rfl <;> rcases hb with rfl | rfl | rfl | rfl | rfl <;>
    decide

/-- C5, specification side: the aspects joining one chart's Sun with the other
chart's Moon, identified by their labels. -/
def specSunMoonB (c1 c2 : Chart) (a : Aspect) : Bool :=
  decide ((a.planet1 = planetLabel c1.name (strOf "Sun") ∧
           a.planet2 = planetLabel c2.name (strOf "Moon")) ∨
          (a.planet1 = planetLabel c1.name (strOf "Moon") ∧
           a.planet2 = planetLabel c2.name (strOf "Sun")))

/-- C5, specification side: the aspects joining one chart's Venus with the
other chart's Mars. -/
def specVenusMarsB (c1 c2 : Chart) (a : Aspect) : Bool :=
  decide ((a.planet1 = planetLabel c1.name (strOf "Venus") ∧
           a.planet2 = planetLabel c2.name (strOf "Mars")) ∨
          (a.planet1 = planetLabel c1.name (strOf "Mars") ∧
           a.planet2 = planetLabel c2.name (strOf "Venus")))

/-- C5, specification side: the Romance formula exactly as the claim states
it — baseline 50 plus 3·avg plus 2× each Sun-Moon aspect score plus 3× each
Venus-Mars aspect score, clamped to [0, 100]. -/
def specRomance (c1 c2 : Chart) : ℚ :=
  normalizeScore (50 + 3 * aspectAvg (findAspects c1 c2) +
    2 * (sumScores ((findAspects c1 c2).filter (specSunMoonB c1 c2)) : ℚ) +
    3 * (sumScores ((findAspects c1 c2).filter (specVenusMarsB c1 c2)) : ℚ))

theorem mem_findAspects_bodies {c1 c2 : Chart} {a : Aspect} (ha : a ∈ findAspects c1 c2) :
    ∃ b1 ∈ RELATIONSHIP_PLANETS, ∃ b2 ∈ RELATIONSHIP_PLANETS,
      a.planet1 = planetLabel c1.name b1 ∧ a.planet2 = planetLabel c2.name b2 := by
  have ha2 : a ∈ findAspectsRaw c1 c2 := by
    rw [findAspects] at ha
    exact (List.perm_insertionSort aspectGE _).mem_iff.mp ha
  obtain ⟨p1, hp1, p2, hp2, hpa⟩ := mem_findAspectsRaw ha2
  obtain ⟨ha1, hb2, -⟩ := mem_pairAspects hpa
  have hr1 : relevant p1 = true := List.of_mem_filter hp1
  have hr2 : relevant p2 = true := List.of_mem_filter hp2
  refine ⟨p1.1, of_decide_eq_true (show decide (p1.1 ∈ RELATIONSHIP_PLANETS) = true from hr1),
    p2.1, of_decide_eq_true (show decide (p2.1 ∈ RELATIONSHIP_PLANETS) = true from hr2),
    ha1, hb2⟩

theorem sunMoonFilter_eq_spec {c1 c2 : Chart} {a : Aspect}
    (h1 : cleanName c1.name) (h2 : cleanName c2.name) (ha : a ∈ findAspects c1 c2) :
    sunMoonFilter a = specSunMoonB c1 c2 a := by
  obtain ⟨b1, hb1, b2, hb2, ha1, ha2⟩ := mem_findAspects_bodies ha
  have hSun : strOf "Sun" ∈ RELATIONSHIP_PLANETS := by decide
  have hMoon : strOf "Moon" ∈ RELATIONSHIP_PLANETS := by decide
  rw [sunMoonFilter, specSunMoonB, ha1, ha2]
  rw [hasSub_planetLabel (h1 _ hSun) (by decide), hasSub_planetLabel (h2 _ hMoon) (by decide),
      hasSub_planetLabel (h1 _ hMoon) (by decide), hasSub_planetLabel (h2 _ hSun) (by decide)]
  rw [hasSub_poss_eq _ _ hSun hb1, hasSub_poss_eq _ _ hMoon hb2,
      hasSub_poss_eq _ _ hMoon hb1, hasSub_poss_eq _ _ hSun hb2]
  apply Bool.eq_iff_iff.mpr
  simp [planetLabel_inj_iff]

theorem venusMarsFilter_eq_spec {c1 c2 : Chart} {a : Aspect}
    (h1 : cleanName c1.name) (h2 : cleanName c2.name) (ha : a ∈ findAspects c1 c2) :
    venusMarsFilter a = specVenusMarsB c1 c2 a := by
  obtain ⟨b1, hb1, b2, hb2, ha1, ha2⟩ := mem_findAspects_bodies ha
  have hVenus : strOf "Venus" ∈ RELATIONSHIP_PLANETS := by decide
  have hMars : strOf "Mars" ∈ RELATIONSHIP_PLANETS := by decide
  rw [venusMarsFilter, specVenusMarsB, ha1, ha2]
  rw [hasSub_planetLabel (h1 _ hVenus) (by decide), hasSub_planetLabel (h2 _ hMars) (by decide),
      hasSub_planetLabel (h1 _ hMars) (by decide), hasSub_planetLabel (h2 _ hVenus) (by decide)]
  rw [hasSub_poss_eq _ _ hVenus hb1, hasSub_poss_eq _ _ hMars hb2,
      hasSub_poss_eq _ _ hMars hb1, hasSub_poss_eq _ _ hVenus hb2]
  apply Bool.eq_iff_iff.mpr
  simp [planetLabel_inj_iff]

/-- The Romance computation with its guarded additions flattened: the two
conditional additions equal unconditional sums (an empty filtered list
contributes 0). -/
theorem romance_unconditional (c1 c2 : Chart) (l : List Aspect) :
    (calculateCategoryScores c1 c2 l).romance =
      normalizeScore (50 + 3 * aspectAvg l +
        2 * (sumScores (l.filter sunMoonFilter) : ℚ) +
        3 * (sumScores (l.filter venusMarsFilter) : ℚ)) := by
  have hx : (calculateCategoryScores c1 c2 l).romance = normalizeScore
      (if l.filter venusMarsFilter = [] then
        (if l.filter sunMoonFilter = [] then 50 + aspectAvg l * 3
         else 50 + aspectAvg l * 3 +
           ((((l.filter sunMoonFilter).map (fun a => a.score * 2)).sum : ℤ) : ℚ))
       else
        (if l.filter sunMoonFilter = [] then 50 + aspectAvg l * 3
         else 50 + aspectAvg l * 3 +
           ((((l.filter sunMoonFilter).map (fun a => a.score * 2)).sum : ℤ) : ℚ)) +
           ((((l.filter venusMarsFilter).map (fun a => a.score * 3)).sum : ℤ) : ℚ)) := rfl
  rw [hx]
  congr 1
  have e2 : ∀ m : List Aspect, ((m.map (fun a => a.score * 2)).sum : ℤ) = sumScores m * 2 :=
    fun m => List.sum_map_mul_right m Aspect.score 2
  have e3 : ∀ m : List Aspect, ((m.map (fun a => a.score * 3)).sum : ℤ) = sumScores m * 3 :=
    fun m => List.sum_map_mul_right m Aspect.score 3
  by_cases hsm : l.filter sunMoonFilter = [] <;> by_cases hvm : l.filter venusMarsFilter = [] <;>
    simp [hsm, hvm, e2, e3, sumScores] <;> push_cast <;> ring

/-- C5, amended: for charts whose names do not contain any of the five
relevant body names as substrings, the Romance category score is exactly the
claimed clamp of 50 + 3·avg + 2·(sum over Sun-Moon aspects) + 3·(sum over
Venus-Mars aspects).  (Without that proviso the claim fails: the code filters
by substring containment in the "name's planet" labels, so a name such as
"Sunny" makes unrelated aspects count as Sun aspects — see the
counterexample.) -/
theorem romance_formula_clean_names (c1 c2 : Chart)
    (h1 : cleanName c1.name) (h2 : cleanName c2.name) :
    (analyze c1 c2).category_scores.romance = specRomance c1 c2 := by
  have hsm : (findAspects c1 c2).filter sunMoonFilter =
      (findAspects c1 c2).filter (specSunMoonB c1 c2) :=
    List.filter_congr (fun a ha => sunMoonFilter_eq_spec h1 h2 ha)
  have hvm : (findAspects c1 c2).filter venusMarsFilter =
      (findAspects c1 c2).filter (specVenusMarsB c1 c2) :=
    List.filter_congr (fun a ha => venusMarsFilter_eq_spec h1 h2 ha)
  rw [analyze_category_scores_def, romance_unconditional, hsm, hvm, specRomance]

theorem romance_formula_clean_names_witness :
    cleanName chartSunA.name ∧ cleanName chartMoonB.name ∧
    (analyze chartSunA chartMoonB).category_scores.romance = specRomance chartSunA chartMoonB :=
  ⟨by decide, by decide,
   romance_formula_clean_names chartSunA chartMoonB (by decide) (by decide)⟩

/-- A chart whose owner name contains "Sun" as a substring. -/
def chartSunnyA : Chart :=
  ⟨strOf "Sunny", [(strOf "Mercury", ⟨0, strOf "Aries"⟩)],
   strOf "Fire", strOf "Cardinal", strOf "ENTJ", 1⟩

def chartPlainB : Chart :=
  ⟨strOf "Bob", [(strOf "Moon", ⟨0, strOf "Leo"⟩)],
   strOf "Earth", strOf "Mutable", strOf "INFP", 3⟩

/-- The single aspect found for the pair above: a Mercury-Moon conjunction. -/
def mercMoonConj : Aspect :=
  ⟨planetLabel (strOf "Sunny") (strOf "Mercury"), planetLabel (strOf "Bob") (strOf "Moon"),
   strOf "conjunction", 0, 5, strOf "Aries", strOf "Leo"⟩

theorem findAspects_sunny : findAspects chartSunnyA chartPlainB = [mercMoonConj] := by
  have h1 : findAspectsRaw chartSunnyA chartPlainB = [mercMoonConj] := by
    rw [findAspectsRaw]
    have hf1 : (chartSunnyA.planets.filter relevant) = chartSunnyA.planets := by
      simp +decide [chartSunnyA]
    have hf2 : (chartPlainB.planets.filter relevant) = chartPlainB.planets := by
      simp +decide [chartPlainB]
    rw [hf1, hf2]
    show (List.flatMap _ _) = _
    norm_num [chartSunnyA, chartPlainB, List.flatMap, pairAspects, ASPECT_TABLE,
      calculateAngleDifference, mercMoonConj, List.filterMap_cons]
  rw [findAspects, h1]
  simp [List.insertionSort, List.orderedInsert]

/-- C5 (counterexample to the claim as stated): the filters test substring
containment in the "name's planet" labels, not body identity.  With a chart
named "Sunny", a Mercury-Moon conjunction is counted by the Sun-Moon filter:
the code returns Romance 75 while the claimed formula (summing over exactly
the Sun-Moon and Venus-Mars aspects) yields 65. -/
theorem romance_substring_counterexample :
    (analyze chartSunnyA chartPlainB).category_scores.romance = 75 ∧
    specRomance chartSunnyA chartPlainB = 65 ∧
    (analyze chartSunnyA chartPlainB).category_scores.romance ≠
      specRomance chartSunnyA chartPlainB := by
  have h1 : List.filter sunMoonFilter [mercMoonConj] = [mercMoonConj] := by
    simp +decide [List.filter]
  have h2 : List.filter venusMarsFilter [mercMoonConj] = [] := by
    simp +decide [List.filter]
  have h1s : List.filter (specSunMoonB chartSunnyA chartPlainB) [mercMoonConj] = [] := by
    simp +decide [List.filter]
  have h2s : List.filter (specVenusMarsB chartSunnyA chartPlainB) [mercMoonConj] = [] := by
    simp +decide [List.filter]
  have hsum : sumScores [mercMoonConj] = 5 := by decide
  have havg : aspectAvg [mercMoonConj] = 5 := by norm_num [aspectAvg, hsum]
  have hrom : (analyze chartSunnyA chartPlainB).category_scores.romance = 75 := by
    rw [analyze_category_scores_def, findAspects_sunny, romance_unconditional, h1, h2, havg,
      hsum]
    norm_num [sumScores, normalizeScore]
  have hspec : specRomance chartSunnyA chartPlainB = 65 := by
    rw [specRomance, findAspects_sunny, h1s, h2s, havg]
    norm_num [sumScores, normalizeScore]
  exact ⟨hrom, hspec, by rw [hrom, hspec]; norm_num⟩
